import Mathlib

/-!
Shallow embedding of the crossterm-winapi library (a safety wrapper around
the Windows Console API) and proofs about its handle-ownership model,
semaphore wrapper, screen-buffer wrapper and value-type conversions.

Native system calls are modelled by explicit call records handed to an
environment (a function from call records to results), so that theorems can
speak both about *which* native call a wrapper function performs and about
the wrapper's treatment of the result.
-/

set_option maxHeartbeats 1000000

namespace CrosstermWinapi

/-- A native Windows `HANDLE`, modelled as an integer value. -/
abbrev HANDLE := Int

/-- The `INVALID_HANDLE_VALUE` sentinel (`(HANDLE)-1`). -/
def INVALID_HANDLE_VALUE : HANDLE := -1

/-- `winnt::GENERIC_READ`. -/
def GENERIC_READ : Nat := 0x80000000

/-- `winnt::GENERIC_WRITE`. -/
def GENERIC_WRITE : Nat := 0x40000000

/-- `winnt::FILE_SHARE_READ`. -/
def FILE_SHARE_READ : Nat := 1

/-- `winnt::FILE_SHARE_WRITE`. -/
def FILE_SHARE_WRITE : Nat := 2

/-- `fileapi::OPEN_EXISTING`. -/
def OPEN_EXISTING : Nat := 3

/-- `winbase::STD_OUTPUT_HANDLE` (`(DWORD)-11`). -/
def STD_OUTPUT_HANDLE : Nat := 0xFFFFFFF5

/-- `winbase::STD_INPUT_HANDLE` (`(DWORD)-10`). -/
def STD_INPUT_HANDLE : Nat := 0xFFFFFFF6

/-- `CONSOLE_TEXTMODE_BUFFER`. -/
def CONSOLE_TEXTMODE_BUFFER : Nat := 1

/-- An `std::io::Error` produced by `io::Error::last_os_error()` or by a
`windows` crate error: it carries the raw OS error code. -/
structure IoError where
  rawOsError : Int
deriving DecidableEq, Repr

/-- The native `COORD` record (two signed 16-bit fields `X` and `Y`). -/
structure COORD where
  X : Int
  Y : Int
deriving DecidableEq, Repr

/-- Modelled from the spec: the `Coord` value type of `src/structs` (an X/Y
pair converted from the native `COORD` record) — the file defining `Coord`
itself is not among the sources, only `coord_result` in `lib.rs` uses it. -/
structure Coord where
  x : Int
  y : Int
deriving DecidableEq, Repr

/-- `Coord::from(COORD)`, modelled from the spec (plain field conversion). -/
def Coord.fromCOORD (c : COORD) : Coord :=
  ⟨c.X, c.Y⟩

/-- `crossterm_winapi::coord_result` from `src/lib.rs`: turn a `COORD`
returned by WinAPI into an `io::Result<Coord>`.  The last OS error code is
passed explicitly, standing for `io::Error::last_os_error()`. -/
def coord_result (lastOsError : Int) (return_value : COORD) : Except IoError Coord :=
  if return_value.X ≠ 0 ∧ return_value.Y ≠ 0 then
    .ok (Coord.fromCOORD return_value)
  else
    .error ⟨lastOsError⟩

/-- The `Size` struct from `src/structs/size.rs` (signed 16-bit width and
height, modelled as integers in the `i16` range). -/
structure Size where
  width : Int
  height : Int
deriving DecidableEq, Repr

/-- `Size::new` from `src/structs/size.rs`. -/
def Size.new (width height : Int) : Size :=
  ⟨width, height⟩

/-- `From<COORD> for Size` from `src/structs/size.rs`. -/
def Size.fromCOORD (coord : COORD) : Size :=
  Size.new coord.X coord.Y

/-- Rust `as u16` applied to an `i16` value: a bitwise reinterpretation,
i.e. reduction modulo 2^16 (Int.emod yields the unsigned representative). -/
def i16AsU16 (x : Int) : Int :=
  x % 65536

/-- `From<Size> for (u16, u16)` from `src/structs/size.rs`:
`(val.width as u16, val.height as u16)`. -/
def sizeToU16Pair (val : Size) : Int × Int :=
  (i16AsU16 val.width, i16AsU16 val.height)

/-- The `Inner` struct of `src/handle.rs`: the native handle together with
the exclusivity flag (`true` means this wrapper must close the handle). -/
structure Inner where
  handle : HANDLE
  exclusive : Bool
deriving DecidableEq, Repr

/-- The `Handle` struct of `src/handle.rs` (an `Arc<Inner>`; the reference
count itself is modelled separately by the `rc` trace semantics below). -/
structure Handle where
  inner : Inner
deriving DecidableEq, Repr

/-- The `HandleType` enum of `src/handle.rs`. -/
inductive HandleType
  | OutputHandle
  | InputHandle
  | CurrentOutputHandle
  | CurrentInputHandle
deriving DecidableEq, Repr

/-- The argument record of a `CreateFileW` call. -/
structure CreateFileWCall where
  lpFileName : String
  dwDesiredAccess : Nat
  dwShareMode : Nat
  lpSecurityAttributes : Option Unit
  dwCreationDisposition : Nat
  dwFlagsAndAttributes : Nat
  hTemplateFile : Option Unit
deriving DecidableEq, Repr

/-- The OS environment seen by `Handle` acquisition: responses of
`GetStdHandle` and `CreateFileW`, and the current last-OS-error code. -/
structure OsEnv where
  getStdHandle : Nat → HANDLE
  createFileW : CreateFileWCall → HANDLE
  lastOsError : Int

/-- `Handle::is_valid_handle` from `src/handle.rs`. -/
def Handle.is_valid_handle (handle : HANDLE) : Bool :=
  if handle = INVALID_HANDLE_VALUE then false else true

/-- `Handle::from_raw` from `src/handle.rs`: wrap a caller-supplied native
value as an exclusively owned handle. -/
def Handle.from_raw (handle : HANDLE) : Handle :=
  ⟨⟨handle, true⟩⟩

/-- The exact `CreateFileW` call `Handle::current_out_handle` performs:
open `CONOUT$` for read/write, with shared read/write access, no security
attributes, `OPEN_EXISTING` disposition, no flags and no template file. -/
def conoutCreateFileCall : CreateFileWCall :=
  { lpFileName := "CONOUT$"
    dwDesiredAccess := GENERIC_READ ||| GENERIC_WRITE
    dwShareMode := FILE_SHARE_READ ||| FILE_SHARE_WRITE
    lpSecurityAttributes := none
    dwCreationDisposition := OPEN_EXISTING
    dwFlagsAndAttributes := 0
    hTemplateFile := none }

/-- The exact `CreateFileW` call `Handle::current_in_handle` performs: the
same arguments as for `CONOUT$` but on the `CONIN$` file name. -/
def coninCreateFileCall : CreateFileWCall :=
  { lpFileName := "CONIN$"
    dwDesiredAccess := GENERIC_READ ||| GENERIC_WRITE
    dwShareMode := FILE_SHARE_READ ||| FILE_SHARE_WRITE
    lpSecurityAttributes := none
    dwCreationDisposition := OPEN_EXISTING
    dwFlagsAndAttributes := 0
    hTemplateFile := none }

/-- `Handle::current_out_handle` from `src/handle.rs`: open `CONOUT$` via
`CreateFileW`, fail with the last OS error on an invalid handle, otherwise
wrap exclusively. -/
def Handle.current_out_handle (env : OsEnv) : Except IoError Handle :=
  let handle := env.createFileW conoutCreateFileCall
  if ¬ Handle.is_valid_handle handle then
    .error ⟨env.lastOsError⟩
  else
    .ok ⟨⟨handle, true⟩⟩

/-- `Handle::current_in_handle` from `src/handle.rs`: open `CONIN$` via
`CreateFileW`, fail with the last OS error on an invalid handle, otherwise
wrap exclusively. -/
def Handle.current_in_handle (env : OsEnv) : Except IoError Handle :=
  let handle := env.createFileW coninCreateFileCall
  if ¬ Handle.is_valid_handle handle then
    .error ⟨env.lastOsError⟩
  else
    .ok ⟨⟨handle, true⟩⟩

/-- `Handle::output_handle` from `src/handle.rs`: `GetStdHandle` on the
standard output slot, wrapped as non-exclusive (shared). -/
def Handle.output_handle (env : OsEnv) : Except IoError Handle :=
  let handle := env.getStdHandle STD_OUTPUT_HANDLE
  if ¬ Handle.is_valid_handle handle then
    .error ⟨env.lastOsError⟩
  else
    .ok ⟨⟨handle, false⟩⟩

/-- `Handle::input_handle` from `src/handle.rs`: `GetStdHandle` on the
standard input slot, wrapped as non-exclusive (shared). -/
def Handle.input_handle (env : OsEnv) : Except IoError Handle :=
  let handle := env.getStdHandle STD_INPUT_HANDLE
  if ¬ Handle.is_valid_handle handle then
    .error ⟨env.lastOsError⟩
  else
    .ok ⟨⟨handle, false⟩⟩

/-- `Handle::new` from `src/handle.rs`: dispatch on the handle type. -/
def Handle.new (env : OsEnv) : HandleType → Except IoError Handle
  | .OutputHandle => Handle.output_handle env
  | .InputHandle => Handle.input_handle env
  | .CurrentOutputHandle => Handle.current_out_handle env
  | .CurrentInputHandle => Handle.current_in_handle env

/-- Outcome of running `Inner::drop`: either the destructor returns
normally, or the `assert!` fails (a panic, i.e. a fatal abort). -/
inductive DropOutcome
  | returned
  | panicked
deriving DecidableEq, Repr

/-- `Inner::drop` from `src/handle.rs`, given the value `CloseHandle` would
return (nonzero means success).  The second component counts the
`CloseHandle` calls performed: one when the handle is exclusive, none
otherwise.  On an exclusive handle whose close fails, the `assert!` fires
and the drop panics instead of returning. -/
def Inner.dropRun (i : Inner) (closeHandleRet : Int) : DropOutcome × Nat :=
  if i.exclusive then
    if closeHandleRet ≠ 0 then (.returned, 1) else (.panicked, 1)
  else
    (.returned, 0)

/-- Number of `CloseHandle` calls `Inner::drop` performs (close succeeding),
as a function of the exclusivity flag. -/
def Inner.dropCloseCalls (exclusive : Bool) : Nat :=
  if exclusive then 1 else 0

/-- An operation on a `Handle` value: `Clone::clone` or `Drop::drop`. -/
inductive HandleOp
  | clone
  | drop
deriving DecidableEq, Repr

/-- State of the `Arc<Inner>` behind a `Handle`: the strong reference count
together with the number of `CloseHandle` calls performed so far. -/
structure RcState where
  refcount : Nat
  closeCalls : Nat
deriving DecidableEq, Repr

/-- The state right after constructing a `Handle` (one reference, no close
performed). -/
def rcInitial : RcState :=
  ⟨1, 0⟩

/-- One `clone`/`drop` step of the `Arc<Inner>` semantics: `clone`
increments the count; `drop` decrements it, and when the last reference is
dropped the `Inner::drop` destructor runs, closing the handle exactly when
the exclusivity flag is set. -/
def rcStep (exclusive : Bool) (s : RcState) : HandleOp → RcState
  | .clone => { s with refcount := s.refcount + 1 }
  | .drop =>
    if s.refcount = 1 then
      { refcount := 0, closeCalls := s.closeCalls + Inner.dropCloseCalls exclusive }
    else
      { s with refcount := s.refcount - 1 }

/-- Run a list of clone/drop operations from a state. -/
def rcRun (exclusive : Bool) (s : RcState) : List HandleOp → RcState
  | [] => s
  | op :: rest => rcRun exclusive (rcStep exclusive s op) rest

/-- A sequence of operations is valid when every operation acts on a live
reference (Rust's ownership discipline: one cannot clone or drop a value
that no longer exists). -/
def rcValid (exclusive : Bool) (s : RcState) : List HandleOp → Bool
  | [] => true
  | op :: rest => s.refcount != 0 && rcValid exclusive (rcStep exclusive s op) rest

/-- Number of `clone` operations in a sequence. -/
def countClones : List HandleOp → Nat
  | [] => 0
  | .clone :: rest => countClones rest + 1
  | .drop :: rest => countClones rest

/-- Number of `drop` operations in a sequence. -/
def countDrops : List HandleOp → Nat
  | [] => 0
  | .drop :: rest => countDrops rest + 1
  | .clone :: rest => countDrops rest

/-- The argument record of a `CreateSemaphoreW` call. -/
structure CreateSemaphoreWCall where
  lpSemaphoreAttributes : Option Unit
  lInitialCount : Int
  lMaximumCount : Int
  lpName : String
deriving DecidableEq, Repr

/-- The OS environment seen by `Semaphore::new`: the response of
`CreateSemaphoreW` (the `windows` crate surfaces failure as an error
value). -/
structure SemaphoreEnv where
  createSemaphoreW : CreateSemaphoreWCall → Except IoError HANDLE

/-- The `Semaphore` struct of `src/semaphore.rs`. -/
structure Semaphore where
  handle : Handle
deriving DecidableEq, Repr

/-- The exact `CreateSemaphoreW` call `Semaphore::new` performs: no
security attributes, initial count 0, maximum count 1, and the empty wide
string `w!("")` as the name (the source comments it as the unnamed
semaphore). -/
def semaphoreCreateCall : CreateSemaphoreWCall :=
  { lpSemaphoreAttributes := none
    lInitialCount := 0
    lMaximumCount := 1
    lpName := "" }

/-- `Semaphore::new` from `src/semaphore.rs`: perform the creation call and
wrap the returned native handle via `Handle::from_raw` (exclusive). -/
def Semaphore.new (env : SemaphoreEnv) : Except IoError Semaphore :=
  match env.createSemaphoreW semaphoreCreateCall with
  | .error e => .error e
  | .ok h => .ok ⟨Handle.from_raw h⟩

/-- The Win32 error code `ERROR_TOO_MANY_POSTS`. -/
def ERROR_TOO_MANY_POSTS : Int := 298

/-- State of the native semaphore object: current count and maximum. -/
structure SemObject where
  count : Int
  maxCount : Int
deriving DecidableEq, Repr

/-- The semaphore object as created by `Semaphore::new`'s arguments
(initial count 0, maximum count 1). -/
def newSemObject : SemObject :=
  ⟨semaphoreCreateCall.lInitialCount, semaphoreCreateCall.lMaximumCount⟩

/-- Modelled from the spec: the OS side of `ReleaseSemaphore` (not
repository code) — release increments the count by the release amount and
reports the previous count, failing when the count would exceed the
maximum. -/
def releaseSemaphoreOs (s : SemObject) (lReleaseCount : Int) :
    Except IoError (SemObject × Int) :=
  if s.maxCount < s.count + lReleaseCount then
    .error ⟨ERROR_TOO_MANY_POSTS⟩
  else
    .ok ({ s with count := s.count + lReleaseCount }, s.count)

/-- `Semaphore::release` from `src/semaphore.rs`: call `ReleaseSemaphore`
with release count 1 and a `None` previous-count pointer (the previous
count is discarded), returning `Ok(())` on success.  The state of the
native semaphore object is passed and returned explicitly. -/
def Semaphore.release (s : SemObject) : Except IoError (Unit × SemObject) :=
  match releaseSemaphoreOs s 1 with
  | .error e => .error e
  | .ok (s2, _previous_count) => .ok ((), s2)

/-- The `SECURITY_ATTRIBUTES` record as used by `ScreenBuffer::create`. -/
structure SECURITY_ATTRIBUTES where
  nLength : Nat
  lpSecurityDescriptor : Option Unit
  bInheritHandle : Bool
deriving DecidableEq, Repr

/-- `size_of::<SECURITY_ATTRIBUTES>()` on 64-bit Windows. -/
def sizeOfSecurityAttributes : Nat := 24

/-- The argument record of a `CreateConsoleScreenBuffer` call. -/
structure CreateConsoleScreenBufferCall where
  dwDesiredAccess : Nat
  dwShareMode : Nat
  lpSecurityAttributes : Option SECURITY_ATTRIBUTES
  dwFlags : Nat
  lpScreenBufferData : Option Unit
deriving DecidableEq, Repr

/-- The OS environment seen by `ScreenBuffer::create`. -/
structure ScreenBufferEnv where
  createConsoleScreenBuffer : CreateConsoleScreenBufferCall → Except IoError HANDLE

/-- The `ScreenBuffer` struct of `src/screen_buffer.rs`. -/
structure ScreenBuffer where
  handle : Handle
deriving DecidableEq, Repr

/-- `ScreenBuffer::new` from `src/screen_buffer.rs`. -/
def ScreenBuffer.new (handle : Handle) : ScreenBuffer :=
  ⟨handle⟩

/-- The exact `CreateConsoleScreenBuffer` call `ScreenBuffer::create`
performs: read/write access, shared read/write, security attributes with a
null descriptor and an inheritable handle, text-mode buffer, no template
data. -/
def screenBufferCreateCall : CreateConsoleScreenBufferCall :=
  { dwDesiredAccess := GENERIC_READ ||| GENERIC_WRITE
    dwShareMode := FILE_SHARE_READ ||| FILE_SHARE_WRITE
    lpSecurityAttributes := some
      { nLength := sizeOfSecurityAttributes
        lpSecurityDescriptor := none
        bInheritHandle := true }
    dwFlags := CONSOLE_TEXTMODE_BUFFER
    lpScreenBufferData := none }

/-- `ScreenBuffer::create` from `src/screen_buffer.rs`: perform the
creation call and wrap the returned native handle via `Handle::from_raw`
(exclusive). -/
def ScreenBuffer.create (env : ScreenBufferEnv) : Except IoError ScreenBuffer :=
  match env.createConsoleScreenBuffer screenBufferCreateCall with
  | .error e => .error e
  | .ok h => .ok ⟨Handle.from_raw h⟩

/-- The argument record of a `GetCurrentConsoleFont` call. -/
structure GetCurrentConsoleFontCall where
  hConsoleOutput : HANDLE
  bMaximumWindow : Bool
deriving DecidableEq, Repr

/-- The `GetCurrentConsoleFont` call `ScreenBuffer::font_info` performs:
the buffer's own handle and `false` for the maximum-window flag (info for
the current window size, not the maximum). -/
def ScreenBuffer.fontInfoCall (sb : ScreenBuffer) : GetCurrentConsoleFontCall :=
  { hConsoleOutput := sb.handle.inner.handle
    bMaximumWindow := false }

/-- A concrete OS environment used to evaluate the handle wrappers: every
acquisition succeeds (standard handles are 7, created files are 9). -/
def testOsEnv : OsEnv :=
  { getStdHandle := fun _ => 7
    createFileW := fun _ => 9
    lastOsError := 5 }

/-- A concrete OS environment in which `CreateSemaphoreW` succeeds with
native handle 11. -/
def testSemaphoreEnv : SemaphoreEnv :=
  { createSemaphoreW := fun _ => .ok 11 }

/-- A concrete OS environment in which `CreateConsoleScreenBuffer` succeeds
with native handle 13. -/
def testScreenBufferEnv : ScreenBufferEnv :=
  { createConsoleScreenBuffer := fun _ => .ok 13 }

/-! ### Helper lemmas about the reference-count trace semantics -/

theorem rcValid_nil_of_refcount_zero (exclusive : Bool) (s : RcState)
    (h0 : s.refcount = 0) (ops : List HandleOp)
    (h : rcValid exclusive s ops = true) : ops = [] := by
  cases ops with
  | nil => rfl
  | cons op rest => simp [rcValid, h0] at h

theorem rcRun_append (exclusive : Bool) (pre suf : List HandleOp) :
    ∀ s, rcRun exclusive s (pre ++ suf) = rcRun exclusive (rcRun exclusive s pre) suf := by
  induction pre with
  | nil => intro s; simp [rcRun]
  | cons op rest ih => intro s; simp [rcRun, ih]

theorem rcValid_append_left (exclusive : Bool) (pre suf : List HandleOp) :
    ∀ s, rcValid exclusive s (pre ++ suf) = true →
      rcValid exclusive s pre = true ∧
      rcValid exclusive (rcRun exclusive s pre) suf = true := by
  induction pre with
  | nil => intro s h; exact ⟨rfl, h⟩
  | cons op rest ih =>
    intro s h
    simp only [List.cons_append, rcValid, Bool.and_eq_true] at h
    obtain ⟨hne, hrest⟩ := h
    obtain ⟨h1, h2⟩ := ih (rcStep exclusive s op) hrest
    refine ⟨?_, ?_⟩
    · simp [rcValid, hne, h1]
    · simpa [rcRun] using h2

theorem rcRun_refcount (exclusive : Bool) :
    ∀ (ops : List HandleOp) (s : RcState), rcValid exclusive s ops = true →
      s.refcount + countClones ops =
        (rcRun exclusive s ops).refcount + countDrops ops := by
  intro ops
  induction ops with
  | nil => intro s _; simp [rcRun, countClones, countDrops]
  | cons op rest ih =>
    intro s h
    simp only [rcValid, Bool.and_eq_true, bne_iff_ne, ne_eq] at h
    obtain ⟨hne, hrest⟩ := h
    cases op with
    | clone =>
      have := ih (rcStep exclusive s .clone) hrest
      simp only [rcStep] at this
      simp only [rcRun, rcStep, countClones, countDrops]
      omega
    | drop =>
      have hrec := ih (rcStep exclusive s .drop) hrest
      have hstep : (rcStep exclusive s HandleOp.drop).refcount = s.refcount - 1 := by
        by_cases h1 : s.refcount = 1 <;> simp [rcStep, h1]
      rw [hstep] at hrec
      simp only [rcRun, countClones, countDrops]
      omega

theorem rcRun_closeCalls (exclusive : Bool) :
    ∀ (ops : List HandleOp) (s : RcState), rcValid exclusive s ops = true →
      0 < s.refcount →
      ((rcRun exclusive s ops).refcount = 0 →
        (rcRun exclusive s ops).closeCalls =
          s.closeCalls + Inner.dropCloseCalls exclusive) ∧
      (0 < (rcRun exclusive s ops).refcount →
        (rcRun exclusive s ops).closeCalls = s.closeCalls) := by
  intro ops
  induction ops with
  | nil =>
    intro s _ hpos
    refine ⟨?_, fun _ => rfl⟩
    intro h0
    simp only [rcRun] at h0
    omega
  | cons op rest ih =>
    intro s h hpos
    simp only [rcValid, Bool.and_eq_true, bne_iff_ne, ne_eq] at h
    obtain ⟨hne, hrest⟩ := h
    cases op with
    | clone =>
      have := ih (rcStep exclusive s .clone) hrest (by simp [rcStep])
      simpa [rcRun, rcStep] using this
    | drop =>
      by_cases h1 : s.refcount = 1
      · have hstep0 : (rcStep exclusive s HandleOp.drop).refcount = 0 := by
          simp [rcStep, h1]
        have hrest0 : rest = [] :=
          rcValid_nil_of_refcount_zero exclusive _ hstep0 rest hrest
        subst hrest0
        simp [rcRun, rcStep, h1]
      · have hpos2 : 0 < (rcStep exclusive s .drop).refcount := by
          simp only [rcStep, if_neg h1]
          omega
        have := ih (rcStep exclusive s .drop) hrest hpos2
        simpa [rcRun, rcStep, if_neg h1] using this

theorem rcRun_shared_closeCalls :
    ∀ (ops : List HandleOp) (s : RcState),
      (rcRun false s ops).closeCalls = s.closeCalls := by
  intro ops
  induction ops with
  | nil => intro s; rfl
  | cons op rest ih =>
    intro s
    cases op with
    | clone => simp [rcRun, rcStep, ih]
    | drop =>
      by_cases h1 : s.refcount = 1
      · simp [rcRun, rcStep, h1, ih, Inner.dropCloseCalls]
      · simp [rcRun, rcStep, if_neg h1, ih]

/-- Inversion for the common acquisition shape of `src/handle.rs`: if the
invalid-check-then-wrap expression returned `Ok h`, then `h` wraps exactly
the native value that was produced, with the given exclusivity flag. -/
theorem acquisition_ok_inv (env : OsEnv) (x : HANDLE) (excl : Bool) (h : Handle)
    (heq : (if ¬ Handle.is_valid_handle x then
        (.error ⟨env.lastOsError⟩ : Except IoError Handle)
      else .ok ⟨⟨x, excl⟩⟩) = .ok h) :
    h.inner.handle = x ∧ h.inner.exclusive = excl := by
  by_cases hv : x = INVALID_HANDLE_VALUE
  · simp [Handle.is_valid_handle, hv] at heq
  · have hval : Handle.is_valid_handle x = true := by
      simp [Handle.is_valid_handle, hv]
    rw [if_neg (not_not_intro hval)] at heq
    cases heq
    exact ⟨rfl, rfl⟩

/-! ### Claim theorems -/

/-- C3: for every handle type, `Handle::new` either returns a handle whose
native value is not the invalid-handle sentinel, or fails with the last OS
error; it never wraps the sentinel as a success. -/
theorem handle_new_no_sentinel_success (env : OsEnv) (ht : HandleType) :
    (∃ h, Handle.new env ht = .ok h ∧ h.inner.handle ≠ INVALID_HANDLE_VALUE) ∨
    Handle.new env ht = .error ⟨env.lastOsError⟩ := by
  cases ht with
  | OutputHandle =>
    by_cases hv : env.getStdHandle STD_OUTPUT_HANDLE = INVALID_HANDLE_VALUE
    · exact Or.inr (by simp [Handle.new, Handle.output_handle,
        Handle.is_valid_handle, hv])
    · exact Or.inl ⟨⟨⟨env.getStdHandle STD_OUTPUT_HANDLE, false⟩⟩,
        by simp [Handle.new, Handle.output_handle, Handle.is_valid_handle, hv], hv⟩
  | InputHandle =>
    by_cases hv : env.getStdHandle STD_INPUT_HANDLE = INVALID_HANDLE_VALUE
    · exact Or.inr (by simp [Handle.new, Handle.input_handle,
        Handle.is_valid_handle, hv])
    · exact Or.inl ⟨⟨⟨env.getStdHandle STD_INPUT_HANDLE, false⟩⟩,
        by simp [Handle.new, Handle.input_handle, Handle.is_valid_handle, hv], hv⟩
  | CurrentOutputHandle =>
    by_cases hv : env.createFileW conoutCreateFileCall = INVALID_HANDLE_VALUE
    · exact Or.inr (by simp [Handle.new, Handle.current_out_handle,
        Handle.is_valid_handle, hv])
    · exact Or.inl ⟨⟨⟨env.createFileW conoutCreateFileCall, true⟩⟩,
        by simp [Handle.new, Handle.current_out_handle, Handle.is_valid_handle, hv], hv⟩
  | CurrentInputHandle =>
    by_cases hv : env.createFileW coninCreateFileCall = INVALID_HANDLE_VALUE
    · exact Or.inr (by simp [Handle.new, Handle.current_in_handle,
        Handle.is_valid_handle, hv])
    · exact Or.inl ⟨⟨⟨env.createFileW coninCreateFileCall, true⟩⟩,
        by simp [Handle.new, Handle.current_in_handle, Handle.is_valid_handle, hv], hv⟩

/-- C5: `Handle::new` resolves exactly four acquisition strategies: the two
standard-handle types query `GetStdHandle` and produce shared handles; the
two current-buffer types open `CONOUT$` respectively `CONIN$` for
read/write with shared read/write access and `OPEN_EXISTING` semantics and
produce exclusively owned handles. -/
theorem handle_new_four_strategies (env : OsEnv) :
    (∀ h, Handle.new env .OutputHandle = .ok h →
      h.inner.handle = env.getStdHandle STD_OUTPUT_HANDLE ∧
      h.inner.exclusive = false) ∧
    (∀ h, Handle.new env .InputHandle = .ok h →
      h.inner.handle = env.getStdHandle STD_INPUT_HANDLE ∧
      h.inner.exclusive = false) ∧
    (∀ h, Handle.new env .CurrentOutputHandle = .ok h →
      h.inner.handle = env.createFileW conoutCreateFileCall ∧
      h.inner.exclusive = true) ∧
    (∀ h, Handle.new env .CurrentInputHandle = .ok h →
      h.inner.handle = env.createFileW coninCreateFileCall ∧
      h.inner.exclusive = true) ∧
    conoutCreateFileCall =
      { lpFileName := "CONOUT$"
        dwDesiredAccess := GENERIC_READ ||| GENERIC_WRITE
        dwShareMode := FILE_SHARE_READ ||| FILE_SHARE_WRITE
        lpSecurityAttributes := none
        dwCreationDisposition := OPEN_EXISTING
        dwFlagsAndAttributes := 0
        hTemplateFile := none } ∧
    coninCreateFileCall =
      { lpFileName := "CONIN$"
        dwDesiredAccess := GENERIC_READ ||| GENERIC_WRITE
        dwShareMode := FILE_SHARE_READ ||| FILE_SHARE_WRITE
        lpSecurityAttributes := none
        dwCreationDisposition := OPEN_EXISTING
        dwFlagsAndAttributes := 0
        hTemplateFile := none } := by
  refine ⟨?_, ?_, ?_, ?_, rfl, rfl⟩
  · intro h heq
    exact acquisition_ok_inv env _ false h
      (by simpa [Handle.new, Handle.output_handle] using heq)
  · intro h heq
    exact acquisition_ok_inv env _ false h
      (by simpa [Handle.new, Handle.input_handle] using heq)
  · intro h heq
    exact acquisition_ok_inv env _ true h
      (by simpa [Handle.new, Handle.current_out_handle] using heq)
  · intro h heq
    exact acquisition_ok_inv env _ true h
      (by simpa [Handle.new, Handle.current_in_handle] using heq)

/-- Witness for C5: under the concrete environment `testOsEnv`, the
standard-output acquisition yields the shared handle 7 and the `CONOUT$`
acquisition yields the exclusive handle 9. -/
theorem handle_new_four_strategies_w :
    ((Handle.mk ⟨7, false⟩).inner.handle = testOsEnv.getStdHandle STD_OUTPUT_HANDLE ∧
      (Handle.mk ⟨7, false⟩).inner.exclusive = false) ∧
    ((Handle.mk ⟨9, true⟩).inner.handle = testOsEnv.createFileW conoutCreateFileCall ∧
      (Handle.mk ⟨9, true⟩).inner.exclusive = true) :=
  ⟨(handle_new_four_strategies testOsEnv).1 ⟨⟨7, false⟩⟩ rfl,
    (handle_new_four_strategies testOsEnv).2.2.1 ⟨⟨9, true⟩⟩ rfl⟩

/-- C9: `coord_result` returns `Ok` exactly when both coordinates of the
native `COORD` are nonzero; whenever either coordinate is 0 it returns the
last OS error, and in the success case it returns the converted pair. -/
theorem coord_result_ok_iff_nonzero (lastOsError : Int) (c : COORD) :
    ((∃ r, coord_result lastOsError c = .ok r) ↔ (c.X ≠ 0 ∧ c.Y ≠ 0)) ∧
    ((c.X = 0 ∨ c.Y = 0) → coord_result lastOsError c = .error ⟨lastOsError⟩) ∧
    (c.X ≠ 0 ∧ c.Y ≠ 0 → coord_result lastOsError c = .ok (Coord.fromCOORD c)) := by
  by_cases hx : c.X = 0
  · simp [coord_result, hx]
  · by_cases hy : c.Y = 0
    · simp [coord_result, hx, hy]
    · simp [coord_result, hx, hy]

/-- Witness for C9: at `COORD {X = 3, Y = 0}` — the Y coordinate is zero so
the call fails with the last OS error even though X is nonzero. -/
theorem coord_result_ok_iff_nonzero_w :
    coord_result 7 ⟨3, 0⟩ = .error ⟨7⟩ :=
  (coord_result_ok_iff_nonzero 7 ⟨3, 0⟩).2.1 (Or.inr rfl)

/-- C10: converting a `Size` to a `(u16, u16)` pair reinterprets each
signed 16-bit field modulo 2^16, so a negative width such as -1 becomes the
large unsigned value 65535 rather than failing or clamping to zero. -/
theorem size_to_u16_pair_bitwise :
    (∀ s : Size, sizeToU16Pair s = (s.width % 2 ^ 16, s.height % 2 ^ 16)) ∧
    (∀ w h : Int, -32768 ≤ w → w < 0 →
      (sizeToU16Pair (Size.new w h)).1 = 65536 + w ∧
      (sizeToU16Pair (Size.new w h)).1 ≠ 0) ∧
    sizeToU16Pair (Size.new (-1) (-1)) = (65535, 65535) := by
  refine ⟨fun s => by norm_num [sizeToU16Pair, i16AsU16], ?_, by decide⟩
  intro w h h1 h2
  simp only [sizeToU16Pair, i16AsU16, Size.new]
  constructor <;> omega

/-- Witness for C10: `Size {width = -1, height = 2}` converts to a first
component of 65535 (= 65536 + (-1)), not zero. -/
theorem size_to_u16_pair_bitwise_w :
    (sizeToU16Pair (Size.new (-1) 2)).1 = 65536 + (-1) ∧
    (sizeToU16Pair (Size.new (-1) 2)).1 ≠ 0 :=
  size_to_u16_pair_bitwise.2.1 (-1) 2 (by norm_num) (by norm_num)

/-- C4: when `Inner::drop` runs on an exclusively owned handle and
`CloseHandle` reports failure (returns 0), the `assert!` fires and the drop
panics (fatal) instead of returning; a drop that returns normally on an
exclusive handle implies the close succeeded, so a close failure is never
silently swallowed. -/
theorem drop_close_failure_fatal :
    (∀ i : Inner, i.exclusive = true →
      Inner.dropRun i 0 = (DropOutcome.panicked, 1)) ∧
    (∀ (i : Inner) (ret : Int),
      (Inner.dropRun i ret).1 = DropOutcome.returned →
      i.exclusive = true → ret ≠ 0) := by
  constructor
  · intro i hex
    simp [Inner.dropRun, hex]
  · intro i ret hret hex h0
    subst h0
    simp [Inner.dropRun, hex] at hret

/-- Witness for C4: dropping the exclusive `Inner` with native handle 5
while `CloseHandle` fails panics after the single close call. -/
theorem drop_close_failure_fatal_w :
    Inner.dropRun ⟨5, true⟩ 0 = (DropOutcome.panicked, 1) :=
  drop_close_failure_fatal.1 ⟨5, true⟩ rfl

/-- C7: `Semaphore::release` increments the semaphore count by exactly one
and discards the previous count, returning `Ok(())`; it fails with an OS
error when the count would exceed the maximum.  On the object created by
`Semaphore::new` (count 0, maximum 1) a first release succeeds and a second
release without an intervening acquire fails. -/
theorem semaphore_release_inc_and_binary_gate :
    (∀ s : SemObject, s.count + 1 ≤ s.maxCount →
      Semaphore.release s = .ok ((), ⟨s.count + 1, s.maxCount⟩)) ∧
    (∀ s : SemObject, s.maxCount < s.count + 1 →
      Semaphore.release s = .error ⟨ERROR_TOO_MANY_POSTS⟩) ∧
    Semaphore.release newSemObject = .ok ((), ⟨1, 1⟩) ∧
    Semaphore.release ⟨1, 1⟩ = .error ⟨ERROR_TOO_MANY_POSTS⟩ := by
  refine ⟨?_, ?_, rfl, rfl⟩
  · intro s h
    simp [Semaphore.release, releaseSemaphoreOs, not_lt.mpr h]
  · intro s h
    simp [Semaphore.release, releaseSemaphoreOs, h]

/-- Witness for C7: releasing the freshly created semaphore object (count
0, maximum 1) succeeds and sets the count to 1. -/
theorem semaphore_release_inc_and_binary_gate_w :
    Semaphore.release ⟨0, 1⟩ = .ok ((), ⟨1, 1⟩) :=
  semaphore_release_inc_and_binary_gate.1 ⟨0, 1⟩ (by decide)

/-- C6: `Semaphore::new` performs a `CreateSemaphoreW` call with no
security attributes, initial count 0, maximum count 1 and the empty
(unnamed) name, and wraps the returned native handle via `Handle::from_raw`
as an exclusively owned handle, so dropping releases the semaphore object
through the handle close path (one `CloseHandle` call). -/
theorem semaphore_new_call_and_ownership :
    (semaphoreCreateCall.lpSemaphoreAttributes = none ∧
      semaphoreCreateCall.lInitialCount = 0 ∧
      semaphoreCreateCall.lMaximumCount = 1 ∧
      semaphoreCreateCall.lpName = "") ∧
    ∀ (env : SemaphoreEnv) (sem : Semaphore),
      Semaphore.new env = .ok sem →
      ∃ h, env.createSemaphoreW semaphoreCreateCall = .ok h ∧
        sem.handle = Handle.from_raw h ∧
        sem.handle.inner.exclusive = true ∧
        Inner.dropCloseCalls sem.handle.inner.exclusive = 1 := by
  refine ⟨⟨rfl, rfl, rfl, rfl⟩, ?_⟩
  intro env sem heq
  cases hres : env.createSemaphoreW semaphoreCreateCall with
  | error e => simp [Semaphore.new, hres] at heq
  | ok h =>
    simp only [Semaphore.new, hres, Except.ok.injEq] at heq
    subst heq
    exact ⟨h, rfl, rfl, rfl, rfl⟩

/-- Witness for C6: under `testSemaphoreEnv` (creation succeeds with native
handle 11), the created semaphore wraps handle 11 exclusively. -/
theorem semaphore_new_call_and_ownership_w :
    ∃ h, testSemaphoreEnv.createSemaphoreW semaphoreCreateCall = .ok h ∧
      (Semaphore.mk (Handle.from_raw 11)).handle = Handle.from_raw h ∧
      (Semaphore.mk (Handle.from_raw 11)).handle.inner.exclusive = true ∧
      Inner.dropCloseCalls
        (Semaphore.mk (Handle.from_raw 11)).handle.inner.exclusive = 1 :=
  semaphore_new_call_and_ownership.2 testSemaphoreEnv ⟨Handle.from_raw 11⟩ rfl

/-- C8: `ScreenBuffer::create` performs a `CreateConsoleScreenBuffer` call
with read/write access, shared read/write access, security attributes with
a null descriptor and an inheritable handle, and the text-mode flag, and
wraps the result exclusively; `ScreenBuffer::font_info` queries the font
with the maximum-window flag set to false (current window size). -/
theorem screen_buffer_create_call_and_font_query :
    (screenBufferCreateCall.dwDesiredAccess = (GENERIC_READ ||| GENERIC_WRITE) ∧
      screenBufferCreateCall.dwShareMode = (FILE_SHARE_READ ||| FILE_SHARE_WRITE) ∧
      screenBufferCreateCall.dwFlags = CONSOLE_TEXTMODE_BUFFER ∧
      ∃ sa, screenBufferCreateCall.lpSecurityAttributes = some sa ∧
        sa.bInheritHandle = true ∧ sa.lpSecurityDescriptor = none) ∧
    (∀ (env : ScreenBufferEnv) (sb : ScreenBuffer),
      ScreenBuffer.create env = .ok sb →
      ∃ h, env.createConsoleScreenBuffer screenBufferCreateCall = .ok h ∧
        sb.handle = Handle.from_raw h ∧
        sb.handle.inner.exclusive = true) ∧
    ∀ sb : ScreenBuffer, (ScreenBuffer.fontInfoCall sb).bMaximumWindow = false := by
  refine ⟨⟨rfl, rfl, rfl, _, rfl, rfl, rfl⟩, ?_, fun sb => rfl⟩
  intro env sb heq
  cases hres : env.createConsoleScreenBuffer screenBufferCreateCall with
  | error e => simp [ScreenBuffer.create, hres] at heq
  | ok h =>
    simp only [ScreenBuffer.create, hres, Except.ok.injEq] at heq
    subst heq
    exact ⟨h, rfl, rfl, rfl⟩

/-- Witness for C8: under `testScreenBufferEnv` (creation succeeds with
native handle 13), the created screen buffer wraps handle 13 exclusively. -/
theorem screen_buffer_create_call_and_font_query_w :
    ∃ h, testScreenBufferEnv.createConsoleScreenBuffer screenBufferCreateCall = .ok h ∧
      (ScreenBuffer.mk (Handle.from_raw 13)).handle = Handle.from_raw h ∧
      (ScreenBuffer.mk (Handle.from_raw 13)).handle.inner.exclusive = true :=
  screen_buffer_create_call_and_font_query.2.1 testScreenBufferEnv
    ⟨Handle.from_raw 13⟩ rfl

/-- C1: a handle built by `Handle::from_raw` is exclusively owned, and for
an exclusively owned handle, any valid sequence of N clones and N+1 drops
(interleaved in any order) performs exactly one `CloseHandle` call, at the
final drop: after every proper prefix of the sequence no close has
happened, and after the whole sequence the count of close calls is 1 and no
reference remains. -/
theorem exclusive_handle_closed_exactly_once :
    (∀ h : HANDLE, (Handle.from_raw h).inner.exclusive = true) ∧
    ∀ (N : Nat) (ops : List HandleOp),
      rcValid true rcInitial ops = true →
      countClones ops = N →
      countDrops ops = N + 1 →
      (rcRun true rcInitial ops).closeCalls = 1 ∧
      (rcRun true rcInitial ops).refcount = 0 ∧
      ∀ pre suf, ops = pre ++ suf → suf ≠ [] →
        (rcRun true rcInitial pre).closeCalls = 0 := by
  refine ⟨fun h => rfl, ?_⟩
  intro N ops hvalid hc hd
  have hacc := rcRun_refcount true ops rcInitial hvalid
  rw [hc, hd] at hacc
  have hacc2 : 1 + N = (rcRun true rcInitial ops).refcount + (N + 1) := hacc
  have hrc0 : (rcRun true rcInitial ops).refcount = 0 := by omega
  have hclose := rcRun_closeCalls true ops rcInitial hvalid (by simp [rcInitial])
  have h1 : (rcRun true rcInitial ops).closeCalls = 1 := by
    have := hclose.1 hrc0
    simpa [rcInitial, Inner.dropCloseCalls] using this
  refine ⟨h1, hrc0, ?_⟩
  intro pre suf hsplit hsuf
  obtain ⟨hvpre, hvsuf⟩ :=
    rcValid_append_left true pre suf rcInitial (hsplit ▸ hvalid)
  have hprepos : 0 < (rcRun true rcInitial pre).refcount := by
    rcases Nat.eq_zero_or_pos (rcRun true rcInitial pre).refcount with h0 | hp
    · exact absurd (rcValid_nil_of_refcount_zero true _ h0 suf hvsuf) hsuf
    · exact hp
  have hclosepre := rcRun_closeCalls true pre rcInitial hvpre (by simp [rcInitial])
  have := hclosepre.2 hprepos
  simpa [rcInitial] using this

/-- Witness for C1: two clones followed by three drops (N = 2) on an
exclusively owned handle yield exactly one close call and no remaining
reference. -/
theorem exclusive_handle_closed_exactly_once_w :
    (rcRun true rcInitial
        [HandleOp.clone, HandleOp.clone, HandleOp.drop,
          HandleOp.drop, HandleOp.drop]).closeCalls = 1 ∧
    (rcRun true rcInitial
        [HandleOp.clone, HandleOp.clone, HandleOp.drop,
          HandleOp.drop, HandleOp.drop]).refcount = 0 :=
  ⟨(exclusive_handle_closed_exactly_once.2 2
      [HandleOp.clone, HandleOp.clone, HandleOp.drop, HandleOp.drop, HandleOp.drop]
      (by decide) (by decide) (by decide)).1,
    (exclusive_handle_closed_exactly_once.2 2
      [HandleOp.clone, HandleOp.clone, HandleOp.drop, HandleOp.drop, HandleOp.drop]
      (by decide) (by decide) (by decide)).2.1⟩

/-- C2: the standard-handle acquisitions produce non-exclusive (shared)
handles, and on a shared handle no sequence of clone and drop operations
ever performs a `CloseHandle` call — even after every reference has been
dropped. -/
theorem shared_handle_never_closed :
    (∀ (env : OsEnv) (h : Handle),
      Handle.new env HandleType.OutputHandle = .ok h ∨
      Handle.new env HandleType.InputHandle = .ok h →
      h.inner.exclusive = false) ∧
    ∀ ops : List HandleOp, (rcRun false rcInitial ops).closeCalls = 0 := by
  constructor
  · intro env h hor
    rcases hor with heq | heq
    · exact (acquisition_ok_inv env _ false h
        (by simpa [Handle.new, Handle.output_handle] using heq)).2
    · exact (acquisition_ok_inv env _ false h
        (by simpa [Handle.new, Handle.input_handle] using heq)).2
  · intro ops
    simpa [rcInitial] using rcRun_shared_closeCalls ops rcInitial

/-- Witness for C2: under `testOsEnv` the standard-output handle is shared,
and dropping all references (one clone, two drops) performs no close. -/
theorem shared_handle_never_closed_w :
    (Handle.mk ⟨7, false⟩).inner.exclusive = false ∧
    (rcRun false rcInitial [HandleOp.clone, HandleOp.drop, HandleOp.drop]).closeCalls = 0 :=
  ⟨shared_handle_never_closed.1 testOsEnv ⟨⟨7, false⟩⟩ (Or.inl rfl),
    shared_handle_never_closed.2 [HandleOp.clone, HandleOp.drop, HandleOp.drop]⟩

end CrosstermWinapi
